import Mathlib

/-
Verification development for the SmartQueue reminder delivery pipeline
(django_reminder_service).  The definitions below are a shallow embedding of
the Python source:

  - reminders/models.py      : ReminderLog, EmailTemplate rows
  - reminders/mongodb_client.py : the appointment source adapter
  - reminders/tasks.py       : check_and_send_reminders, send_reminder_email,
                               send_custom_reminder, cleanup_old_reminders,
                               create_default_email_template

Times (datetimes) are modelled as Int minutes; timedelta(minutes=m) is m and
timedelta(days=30) is 30 * 1440.  Mongo documents carry the fields the code
reads; related entities (users, departments, services) are string dictionaries
keyed by their _id.  Python str.format template strings are modelled as lists
of literal/placeholder parts; a placeholder lookup that would raise KeyError
or TypeError in Python renders to none.
-/

namespace ReminderService

/-- A value stored in a rendering context: a string, a dictionary (nested
entity such as user/department/service), or Python None (a failed lookup). -/
inductive Value where
  | vStr (s : String)
  | vDict (d : List (String × String))
  | vNone
deriving DecidableEq, Repr

/-- A placeholder of a format string: a context name with an optional
subscript, as in `token_number` or `user[firstName]`. -/
structure Placeholder where
  name : String
  index : Option String
deriving DecidableEq, Repr

/-- One part of a Python format string: a literal run or a placeholder. -/
inductive TPart where
  | lit (s : String)
  | ph (p : Placeholder)
deriving DecidableEq, Repr

/-- A format string (template subject or body) as parsed parts. -/
abbrev FormatString := List TPart

/-- Resolution of one placeholder against a context, mirroring Python
`str.format`: a missing context name is a KeyError, subscripting a
non-dictionary (None or a string) is a TypeError, a missing dictionary key is
a KeyError; all three raise, i.e. produce none. -/
def resolvePlaceholder (ctx : List (String × Value)) (p : Placeholder) : Option String :=
  match List.lookup p.name ctx with
  | none => none
  | some v =>
    match p.index with
    | none =>
      match v with
      | Value.vStr s => some s
      | Value.vDict _ => some "<dict>"
      | Value.vNone => some "None"
    | some k =>
      match v with
      | Value.vDict d => List.lookup k d
      | _ => none

/-- Python `fs.format(**ctx)`: substitute every placeholder; the whole call
fails (raises) if any single placeholder fails — there is no partial output. -/
def formatString (fs : FormatString) (ctx : List (String × Value)) : Option String :=
  match fs with
  | [] => some ""
  | TPart.lit s :: rest =>
    match formatString rest ctx with
    | none => none
    | some r => some (s ++ r)
  | TPart.ph p :: rest =>
    match resolvePlaceholder ctx p with
    | none => none
    | some s =>
      match formatString rest ctx with
      | none => none
      | some r => some (s ++ r)

/-- reminders/models.py ReminderLog: one row of the reminder_logs table,
unique on appointment_id. -/
structure ReminderLog where
  appointment_id : String
  user_email : String
  appointment_date : Int
  reminder_sent : Bool
  reminder_sent_at : Option Int
  reminder_type : String
  created_at : Int
deriving DecidableEq, Repr

/-- reminders/models.py EmailTemplate: one row of the email_templates table,
unique together on (reminder_type, is_active). -/
structure EmailTemplate where
  name : String
  subject : FormatString
  body_text : FormatString
  body_html : FormatString
  reminder_type : String
  is_active : Bool
deriving DecidableEq, Repr

/-- The Django-side relational state owned by the service. -/
structure Db where
  reminder_logs : List ReminderLog
  email_templates : List EmailTemplate
deriving DecidableEq, Repr

/-- reminders/mongodb_client.py: one appointment document of the external
Mongo collection, with the fields the service reads.  Optional fields model
keys that may be absent from the document. -/
structure AppointmentDoc where
  _id : String
  appointmentDate : Int
  status : String
  reminderSent : Option Bool
  reminderSentAt : Option Int
  notificationEmail : Option String
  citizenId : Option String
  departmentId : Option String
  serviceId : Option String
  tokenNumber : Option String
  queuePosition : Option String
deriving DecidableEq, Repr

/-- The external MongoDB state: the appointment collection plus the
users/departments/services collections (documents as string dictionaries
keyed by _id). -/
structure MongoState where
  appointments : List AppointmentDoc
  users : List (String × List (String × String))
  departments : List (String × List (String × String))
  services : List (String × List (String × String))
deriving DecidableEq, Repr

/-- MongoDBClient.get_appointments_for_reminder: appointments whose
appointmentDate lies in the inclusive window
[now + (minutes_before - 1), now + (minutes_before + 1)] (minutes), whose
status is one of waiting/confirmed/scheduled, and whose reminderSent field is
not True (Mongo $ne also matches a missing field). -/
def get_appointments_for_reminder (now : Int) (minutes_before : Int)
    (coll : List AppointmentDoc) : List AppointmentDoc :=
  let reminder_time_start := now + (minutes_before - 1)
  let reminder_time_end := now + (minutes_before + 1)
  coll.filter fun a =>
    decide (reminder_time_start ≤ a.appointmentDate) &&
    decide (a.appointmentDate ≤ reminder_time_end) &&
    (a.status == "waiting" || a.status == "confirmed" || a.status == "scheduled") &&
    !(a.reminderSent == some true)

/-- MongoDBClient.get_appointment_by_id: find_one on _id. -/
def get_appointment_by_id (mongo : MongoState) (appointment_id : String) :
    Option AppointmentDoc :=
  mongo.appointments.find? fun d => d._id == appointment_id

/-- MongoDBClient.mark_reminder_sent: update_one setting reminderSent = True
and reminderSentAt on the matching appointment document.  updateOk = false
models the operation failing (an exception, caught inside the client, which
then returns False); the collection is then left unchanged. -/
def mark_reminder_sent (mongo : MongoState) (appointment_id : String) (now : Int)
    (updateOk : Bool) : MongoState :=
  if updateOk then
    { mongo with
      appointments := mongo.appointments.map fun d =>
        if d._id == appointment_id then
          { d with reminderSent := some true, reminderSentAt := some now }
        else d }
  else mongo

/-- The result of cleanup_old_reminders: the rows that survive the delete,
and the returned dictionary fields. -/
structure CleanupResult where
  remaining : List ReminderLog
  deleted_count : Nat
  status : String
deriving DecidableEq, Repr

/-- tasks.py cleanup_old_reminders: delete every ReminderLog whose created_at
is strictly before now - 30 days and return the deleted count. -/
def cleanup_old_reminders (now : Int) (logs : List ReminderLog) : CleanupResult :=
  let cutoff_date := now - 30 * 1440
  { remaining := logs.filter fun r => !(decide (r.created_at < cutoff_date)),
    deleted_count := (logs.filter fun r => decide (r.created_at < cutoff_date)).length,
    status := "success" }

/-- Django EmailTemplate.objects.create under the unique_together constraint
on (reminder_type, is_active): the insert raises IntegrityError when a row
with the same (reminder_type, is_active) pair already exists, else appends. -/
def emailTemplateCreate (templates : List EmailTemplate) (t : EmailTemplate) :
    Except String (EmailTemplate × List EmailTemplate) :=
  if templates.any fun u => u.reminder_type == t.reminder_type && u.is_active == t.is_active then
    Except.error "IntegrityError"
  else
    Except.ok (t, templates ++ [t])

/-- tasks.py create_default_email_template.  The literal texts are abridged;
the placeholders are kept exactly, in source order.  The HTML body's CSS block
contains literal braces which Python str.format parses as replacement fields
(field name " font-family" etc.), so rendering the default HTML body raises
KeyError; the first such part is kept to preserve that behaviour. -/
def defaultEmailTemplate : EmailTemplate :=
  { name := "Default 15-Minute Reminder",
    subject :=
      [TPart.lit "Reminder: Your appointment is in 15 minutes - ",
       TPart.ph { name := "token_number", index := none }],
    body_text :=
      [TPart.lit "Dear ",
       TPart.ph { name := "user", index := some "firstName" },
       TPart.lit " ",
       TPart.ph { name := "user", index := some "lastName" },
       TPart.lit ", appointment scheduled for ",
       TPart.ph { name := "appointment_date_formatted", index := none },
       TPart.lit " at ",
       TPart.ph { name := "appointment_time", index := none },
       TPart.lit ". Token Number: ",
       TPart.ph { name := "token_number", index := none },
       TPart.lit " Department: ",
       TPart.ph { name := "department", index := some "name" },
       TPart.lit " Service: ",
       TPart.ph { name := "service", index := some "name" },
       TPart.lit " Queue Position: ",
       TPart.ph { name := "queue_position", index := none },
       TPart.lit " - SmartQueue Team"],
    body_html :=
      [TPart.lit "<html><head><style>body ",
       TPart.ph { name := " font-family", index := none },
       TPart.lit "</style></head><body><p>Dear ",
       TPart.ph { name := "user", index := some "firstName" },
       TPart.lit " ",
       TPart.ph { name := "user", index := some "lastName" },
       TPart.lit ",</p><p>appointment scheduled for ",
       TPart.ph { name := "appointment_date_formatted", index := none },
       TPart.lit " at ",
       TPart.ph { name := "appointment_time", index := none },
       TPart.lit "</p><li>",
       TPart.ph { name := "token_number", index := none },
       TPart.lit "</li><li>",
       TPart.ph { name := "department", index := some "name" },
       TPart.lit "</li><li>",
       TPart.ph { name := "service", index := some "name" },
       TPart.lit "</li><li>",
       TPart.ph { name := "queue_position", index := none },
       TPart.lit "</li></body></html>"],
    reminder_type := "15min",
    is_active := true }

/-- tasks.py create_default_email_template as an insert: a plain
objects.create of the built-in default (15min, active) template. -/
def create_default_email_template (templates : List EmailTemplate) :
    Except String (EmailTemplate × List EmailTemplate) :=
  emailTemplateCreate templates defaultEmailTemplate

/-- Template resolution inside send_reminder_email:
EmailTemplate.objects.filter(reminder_type='15min', is_active=True).first(),
falling back to create_default_email_template when none is found.  The error
case (IntegrityError on the fallback create) propagates as an exception in
the source; it is reported here as a none template. -/
def resolve_template (templates : List EmailTemplate) :
    Option EmailTemplate × List EmailTemplate :=
  match templates.find? fun t => t.reminder_type == "15min" && t.is_active with
  | some t => (some t, templates)
  | none =>
    match create_default_email_template templates with
    | Except.ok (t, ts) => (some t, ts)
    | Except.error _ => (none, templates)

/-- MongoDBClient.get_user_by_id / get_department_by_id / get_service_by_id:
find_one on _id in the respective collection; a missing id argument (the
appointment document lacked the reference) or a missing document gives None. -/
def find_one_by_id (idOpt : Option String)
    (coll : List (String × List (String × String))) :
    Option (List (String × String)) :=
  match idOpt with
  | none => none
  | some i => List.lookup i coll

/-- Model of Python datetime.strftime for the time-of-day format: the exact
calendar text is immaterial to every claim, only that it is a string. -/
def strftime_time (t : Int) : String := "time:" ++ toString t

/-- Model of Python datetime.strftime for the date format. -/
def strftime_date (t : Int) : String := "date:" ++ toString t

/-- The appointment document as a rendering-context dictionary (the fields
referenced nowhere by the default template; present for fidelity of the
'appointment' context entry). -/
def docFields (d : AppointmentDoc) : List (String × String) :=
  [("_id", d._id), ("status", d.status)]
  ++ (match d.tokenNumber with | some s => [("tokenNumber", s)] | none => [])
  ++ (match d.queuePosition with | some s => [("queuePosition", s)] | none => [])

/-- A related-entity lookup result as a context value: the document
dictionary, or Python None when the lookup failed. -/
def optValue (d : Option (List (String × String))) : Value :=
  match d with
  | some fields => Value.vDict fields
  | none => Value.vNone

/-- The email context dictionary built by send_reminder_email (tasks.py
lines 95-105). -/
def buildContext (appointment_data : AppointmentDoc) (appointment_date : Int)
    (user department service : Option (List (String × String))) :
    List (String × Value) :=
  [("user", optValue user),
   ("appointment", Value.vDict (docFields appointment_data)),
   ("department", optValue department),
   ("service", optValue service),
   ("appointment_date", Value.vStr (toString appointment_date)),
   ("appointment_time", Value.vStr (strftime_time appointment_date)),
   ("appointment_date_formatted", Value.vStr (strftime_date appointment_date)),
   ("token_number", Value.vStr (appointment_data.tokenNumber.getD "N/A")),
   ("queue_position", Value.vStr (appointment_data.queuePosition.getD "N/A"))]

/-- The three sequential format calls of send_reminder_email (subject, text
body, HTML body); the first failure aborts the whole attempt. -/
def renderEmail (template : EmailTemplate) (ctx : List (String × Value)) :
    Option (String × String × String) :=
  match formatString template.subject ctx with
  | none => none
  | some subject =>
    match formatString template.body_text ctx with
    | none => none
    | some message =>
      match formatString template.body_html ctx with
      | none => none
      | some html => some (subject, message, html)

/-- The fresh Claimed row inserted by get_or_create: the defaults of the
source (reminder_sent = False via the model default, reminder_type '15min'),
created_at = now via auto_now_add. -/
def freshLog (appointment_id user_email : String) (appointment_date now : Int) :
    ReminderLog :=
  { appointment_id := appointment_id, user_email := user_email,
    appointment_date := appointment_date, reminder_sent := false,
    reminder_sent_at := none, reminder_type := "15min", created_at := now }

/-- Django ReminderLog.objects.get_or_create on the unique appointment_id:
return the existing row with created = false, or insert a fresh Claimed row
(reminder_sent = False, reminder_type '15min') with created = true. -/
def get_or_create_reminder_log (logs : List ReminderLog)
    (appointment_id user_email : String) (appointment_date now : Int) :
    ReminderLog × Bool × List ReminderLog :=
  match logs.find? fun r => r.appointment_id == appointment_id with
  | some r => (r, false, logs)
  | none =>
    (freshLog appointment_id user_email appointment_date now, true,
     logs ++ [freshLog appointment_id user_email appointment_date now])

/-- The reminder_log.save() after a successful dispatch: the UPDATE by
primary key sets reminder_sent = True and reminder_sent_at = now on the row
for this appointment id and leaves every other row unchanged. -/
def markSentLogs (logs : List ReminderLog) (appointment_id : String) (now : Int) :
    List ReminderLog :=
  match logs with
  | [] => []
  | r :: rest =>
    if r.appointment_id == appointment_id then
      { r with reminder_sent := true, reminder_sent_at := some now } ::
        markSentLogs rest appointment_id now
    else
      r :: markSentLogs rest appointment_id now

/-- Externally observable side effects of one send attempt, in order: the
call to the email gateway, the ledger row being marked sent, and the
best-effort Mongo notified-flag update. -/
inductive Event where
  | gatewayCall
  | ledgerMarkSent
  | mongoMarkNotified
deriving DecidableEq, Repr

/-- The outcome of one send_reminder_email invocation: the returned boolean,
the updated Django and Mongo states, the recipients of emails actually
delivered, and the ordered side-effect trace. -/
structure SendResult where
  ret : Bool
  db : Db
  mongo : MongoState
  emails : List String
  events : List Event
deriving DecidableEq, Repr

/-- tasks.py send_reminder_email, lines 89-144: the post-claim stage.  The
context is built from the Mongo lookups, the active 15-minute template is
resolved (creating the default on a miss), the three format calls run, the
gateway is called, and on gateway success the ledger row is saved as sent
and the Mongo notified flag is updated best-effort. -/
def dispatchAndFinalize (now : Int) (gatewayOk mongoUpdateOk : Bool)
    (appointment_id user_email : String) (appointment_date : Int)
    (appointment_data : AppointmentDoc) (logs1 : List ReminderLog)
    (templates : List EmailTemplate) (mongo : MongoState) : SendResult :=
  match resolve_template templates with
  | (none, templates2) =>
    { ret := false,
      db := { reminder_logs := logs1, email_templates := templates2 },
      mongo := mongo, emails := [], events := [] }
  | (some template, templates2) =>
    match renderEmail template
        (buildContext appointment_data appointment_date
          (find_one_by_id appointment_data.citizenId mongo.users)
          (find_one_by_id appointment_data.departmentId mongo.departments)
          (find_one_by_id appointment_data.serviceId mongo.services)) with
    | none =>
      { ret := false,
        db := { reminder_logs := logs1, email_templates := templates2 },
        mongo := mongo, emails := [], events := [] }
    | some _ =>
      if gatewayOk then
        { ret := true,
          db := { reminder_logs := markSentLogs logs1 appointment_id now,
                  email_templates := templates2 },
          mongo := mark_reminder_sent mongo appointment_id now mongoUpdateOk,
          emails := [user_email],
          events := [Event.gatewayCall, Event.ledgerMarkSent,
                     Event.mongoMarkNotified] }
      else
        { ret := false,
          db := { reminder_logs := logs1, email_templates := templates2 },
          mongo := mongo, emails := [],
          events := [Event.gatewayCall] }

/-- tasks.py send_reminder_email.  gatewayOk models the outcome of the
send_mail call (an SMTP failure raises, caught by the outer handler which
returns False); mongoUpdateOk models the outcome of the best-effort
mark_reminder_sent update (which never raises to the caller). -/
def send_reminder_email (now : Int) (gatewayOk mongoUpdateOk : Bool)
    (appointment_id user_email : String) (appointment_date : Int)
    (appointment_data : AppointmentDoc) (db : Db) (mongo : MongoState) :
    SendResult :=
  match get_or_create_reminder_log db.reminder_logs appointment_id user_email
      appointment_date now with
  | (reminder_log, created, logs1) =>
    if !created && reminder_log.reminder_sent then
      { ret := true,
        db := { reminder_logs := logs1, email_templates := db.email_templates },
        mongo := mongo, emails := [], events := [] }
    else
      dispatchAndFinalize now gatewayOk mongoUpdateOk appointment_id user_email
        appointment_date appointment_data logs1 db.email_templates mongo

/-- tasks.py check_and_send_reminders: query the 15-minute candidates, queue
send_reminder_email.delay for each inside a per-appointment try/except that
continues on failure (delayOk models whether the enqueue raised), and return
the result dictionary, which has exactly the keys "status" and
"reminders_sent" (the .delay AsyncResult is always truthy, so each enqueue
that did not raise increments the count). -/
def check_and_send_reminders (now : Int) (coll : List AppointmentDoc)
    (delayOk : AppointmentDoc → Bool) : List (String × String) :=
  let appointments := get_appointments_for_reminder now 15 coll
  if appointments.isEmpty then
    [("status", "success"), ("reminders_sent", "0")]
  else
    let reminders_sent := appointments.foldl
      (fun acc appointment => if delayOk appointment then acc + 1 else acc) 0
    [("status", "success"), ("reminders_sent", toString reminders_sent)]

/-- The outcome of send_custom_reminder: the returned truthiness, the
arguments it enqueued for send_reminder_email (appointment_id, user_email,
appointment_date, appointment_data), and the result of the enqueued task as
executed. -/
structure CustomOutcome where
  ok : Bool
  enqueued : Option (String × String × Int × AppointmentDoc)
  result : Option SendResult
deriving DecidableEq, Repr

/-- tasks.py send_custom_reminder: look the appointment up by id; on a miss
return False; otherwise enqueue send_reminder_email with the appointment's
data.  The reminder_type argument appears in the source signature and is
referenced nowhere in the body. -/
def send_custom_reminder (now : Int) (gatewayOk mongoUpdateOk : Bool)
    (appointment_id : String) (reminder_type : String) (db : Db)
    (mongo : MongoState) : CustomOutcome :=
  match get_appointment_by_id mongo appointment_id with
  | none => { ok := false, enqueued := none, result := none }
  | some appointment =>
    { ok := true,
      enqueued := some (appointment_id, appointment.notificationEmail.getD "",
        appointment.appointmentDate, appointment),
      result := some (send_reminder_email now gatewayOk mongoUpdateOk
        appointment_id (appointment.notificationEmail.getD "")
        appointment.appointmentDate appointment db mongo) }

namespace Conc

/-
Interleaving model of N concurrent invocations of send_reminder_email for
the at-most-once claim.  Each invocation is decomposed into the atomic
storage operations of the source, in source order: the get_or_create claim,
the already-sent check, the Mongo context fetches, the template query, the
fallback template create, rendering, the gateway call, the ledger
finalization (reminder_log.save with reminder_sent = True), and the
best-effort Mongo notified update.  A scheduler interleaves the workers one
atomic operation at a time.  Per-worker renderOk/gatewayOk model the
externally determined render and gateway outcomes; a failure makes that
worker's invocation return False (its exception is caught by the task).
-/

/-- A ledger row as seen by the concurrency model: only the reminder_sent
flag matters to the claim. -/
structure LRec where
  reminder_sent : Bool
deriving DecidableEq, Repr

/-- Program counter of one in-flight send_reminder_email invocation. -/
inductive Pc where
  | claim
  | check
  | fetchCtx
  | tplQuery
  | tplCreate
  | render
  | gateway
  | finalize
  | notifyMongo
  | done
deriving DecidableEq, Repr

/-- One worker: its target appointment id, its program counter, the local
result of its get_or_create (created flag and the reminder_sent it saw), and
its externally determined render/gateway outcomes. -/
structure Worker where
  aid : String
  pc : Pc
  created : Bool
  seenSent : Bool
  renderOk : Bool
  gatewayOk : Bool
deriving DecidableEq, Repr

/-- The shared state plus the worker pool: the reminder_logs table keyed by
appointment_id (unique), the email_templates table, and a count of emails
handed to the gateway. -/
structure Config where
  ledger : List (String × LRec)
  templates : List EmailTemplate
  emailCount : Nat
  workers : List Worker
deriving Repr

/-- The reminder_sent flag of the ledger row for appointment a (false when no
row exists). -/
def sentLedger (a : String) : List (String × LRec) → Bool
  | [] => false
  | (k, r) :: tl => if a == k then r.reminder_sent else sentLedger a tl

/-- One atomic operation of one worker against the shared state. -/
def stepWorker (c : Config) (w : Worker) : Config × Worker :=
  match w.pc with
  | Pc.claim =>
    match List.lookup w.aid c.ledger with
    | some r =>
      (c, { w with pc := Pc.check, created := false, seenSent := r.reminder_sent })
    | none =>
      ({ c with ledger := c.ledger ++ [(w.aid, { reminder_sent := false })] },
       { w with pc := Pc.check, created := true, seenSent := false })
  | Pc.check =>
    if !w.created && w.seenSent then (c, { w with pc := Pc.done })
    else (c, { w with pc := Pc.fetchCtx })
  | Pc.fetchCtx => (c, { w with pc := Pc.tplQuery })
  | Pc.tplQuery =>
    if c.templates.any fun t => t.reminder_type == "15min" && t.is_active then
      (c, { w with pc := Pc.render })
    else (c, { w with pc := Pc.tplCreate })
  | Pc.tplCreate =>
    match create_default_email_template c.templates with
    | Except.ok (_, ts) => ({ c with templates := ts }, { w with pc := Pc.render })
    | Except.error _ => (c, { w with pc := Pc.done })
  | Pc.render =>
    if w.renderOk then (c, { w with pc := Pc.gateway })
    else (c, { w with pc := Pc.done })
  | Pc.gateway =>
    if w.gatewayOk then
      ({ c with emailCount := c.emailCount + 1 }, { w with pc := Pc.finalize })
    else (c, { w with pc := Pc.done })
  | Pc.finalize =>
    ({ c with ledger := c.ledger.map fun kr =>
        if kr.1 == w.aid then (kr.1, ({ reminder_sent := true } : LRec)) else kr },
     { w with pc := Pc.notifyMongo })
  | Pc.notifyMongo => (c, { w with pc := Pc.done })
  | Pc.done => (c, w)

/-- The scheduler lets worker i take its next atomic operation. -/
def step (c : Config) (i : Nat) : Config :=
  match c.workers[i]? with
  | none => c
  | some w =>
    let p := stepWorker c w
    { p.1 with workers := p.1.workers.set i p.2 }

/-- The reminder_sent flag of appointment a's ledger row in a configuration. -/
def sentOf (a : String) (c : Config) : Bool :=
  sentLedger a c.ledger

/-- The number of scheduler steps at which appointment a's ledger row
transitions from not-sent to Sent along a schedule. -/
def sentRises (a : String) : Config → List Nat → Nat
  | _, [] => 0
  | c, i :: rest =>
    (if sentOf a c = false ∧ sentOf a (step c i) = true then 1 else 0) +
      sentRises a (step c i) rest

/-- A configuration of N fresh concurrent invocations of send_reminder_email
for the same appointment id, over an arbitrary starting ledger and template
table. -/
def initConfig (a : String) (n : Nat) (renderOks gatewayOks : Nat → Bool)
    (ledger : List (String × LRec)) (templates : List EmailTemplate) : Config :=
  { ledger := ledger, templates := templates, emailCount := 0,
    workers := (List.range n).map fun k =>
      { aid := a, pc := Pc.claim, created := false, seenSent := false,
        renderOk := renderOks k, gatewayOk := gatewayOks k } }

end Conc

/-- The number of active 15-minute templates in the template table (the
quantity guarded by the unique_together constraint for this category). -/
def activeTemplateCount (templates : List EmailTemplate) : Nat :=
  (templates.filter fun t => t.reminder_type == "15min" && t.is_active).length

/-- The template table after one invocation of create_default_email_template
(a raising invocation leaves the table unchanged). -/
def createDefaultResultDb (templates : List EmailTemplate) : List EmailTemplate :=
  match create_default_email_template templates with
  | Except.ok (_, ts) => ts
  | Except.error _ => templates

/-- Concrete fixture: a placeholder-free active 15-minute template. -/
def exTemplate : EmailTemplate :=
  { name := "T", subject := [TPart.lit "S"], body_text := [TPart.lit "B"],
    body_html := [TPart.lit "H"], reminder_type := "15min", is_active := true }

/-- Concrete fixture: an active 15-minute template whose subject references a
placeholder absent from every context built by the task. -/
def exBadTemplate : EmailTemplate :=
  { name := "T2",
    subject := [TPart.ph { name := "missing_placeholder", index := none }],
    body_text := [TPart.lit "B"], body_html := [TPart.lit "H"],
    reminder_type := "15min", is_active := true }

/-- Concrete fixture: a Claimed ledger row for appointment a1. -/
def exClaimedLog : ReminderLog :=
  { appointment_id := "a1", user_email := "u@x.com", appointment_date := 100,
    reminder_sent := false, reminder_sent_at := none, reminder_type := "15min",
    created_at := 0 }

/-- Concrete fixture: a Sent ledger row for appointment a1. -/
def exSentLog : ReminderLog :=
  { exClaimedLog with reminder_sent := true, reminder_sent_at := some 10 }

/-- Concrete fixture: the appointment document for a1. -/
def exDoc : AppointmentDoc :=
  { _id := "a1", appointmentDate := 100, status := "confirmed",
    reminderSent := none, reminderSentAt := none,
    notificationEmail := some "u@x.com", citizenId := none,
    departmentId := none, serviceId := none, tokenNumber := some "T1",
    queuePosition := some "3" }

/-- Concrete fixture: a Mongo state holding just a1. -/
def exMongo : MongoState :=
  { appointments := [exDoc], users := [], departments := [], services := [] }

/-- Concrete fixture: Django state with a Claimed row for a1. -/
def exDbClaimed : Db :=
  { reminder_logs := [exClaimedLog], email_templates := [exTemplate] }

/-- Concrete fixture: Django state with a Sent row for a1. -/
def exDbSent : Db :=
  { reminder_logs := [exSentLog], email_templates := [exTemplate] }

/-- Concrete fixture: Django state with no ledger rows and only the broken
template active. -/
def exDbBadTemplate : Db :=
  { reminder_logs := [], email_templates := [exBadTemplate] }

/-- Concrete fixture: Django state with no ledger rows and a rendering
template active. -/
def exDbFresh : Db :=
  { reminder_logs := [], email_templates := [exTemplate] }

/-- Concrete fixture: two candidate appointment documents inside the
15-minute window at now = 0. -/
def exScanDoc1 : AppointmentDoc :=
  { _id := "b1", appointmentDate := 15, status := "waiting",
    reminderSent := none, reminderSentAt := none,
    notificationEmail := some "b1@x.com", citizenId := none,
    departmentId := none, serviceId := none, tokenNumber := none,
    queuePosition := none }

/-- Concrete fixture: the second candidate document. -/
def exScanDoc2 : AppointmentDoc :=
  { exScanDoc1 with _id := "b2", notificationEmail := some "b2@x.com" }

end ReminderService

namespace ReminderService

/-- C5: the Retention Sweeper deletes all and only DeliveryRecords whose
createdAt is strictly older than 30 days before the current time, regardless
of state, never deletes a record newer than the boundary, and returns the
count of records deleted. -/
theorem cleanup_deletes_exactly_old_records (now : Int) (logs : List ReminderLog)
    (r : ReminderLog) :
    (r ∈ (cleanup_old_reminders now logs).remaining ↔
      r ∈ logs ∧ now - 30 * 1440 ≤ r.created_at) ∧
    (cleanup_old_reminders now logs).deleted_count =
      logs.countP (fun x => decide (x.created_at < now - 30 * 1440)) ∧
    (cleanup_old_reminders now logs).status = "success" := by
  refine ⟨?_, ?_, rfl⟩
  · simp [cleanup_old_reminders, List.mem_filter, not_lt]
  · simp [cleanup_old_reminders, List.countP_eq_length_filter]

/-- C6: the candidate query with minutes_before = 15 returns exactly the
appointment snapshots whose scheduled time lies in the inclusive window
[now + 14, now + 16] minutes, whose status is in the pending set
waiting/confirmed/scheduled, and whose external notified flag is not set. -/
theorem candidate_query_characterization (now : Int) (coll : List AppointmentDoc)
    (a : AppointmentDoc) :
    a ∈ get_appointments_for_reminder now 15 coll ↔
      a ∈ coll ∧
      (now + 14 ≤ a.appointmentDate ∧ a.appointmentDate ≤ now + 16) ∧
      (a.status = "waiting" ∨ a.status = "confirmed" ∨ a.status = "scheduled") ∧
      a.reminderSent ≠ some true := by
  have h14 : now + ((15 : Int) - 1) = now + 14 := by norm_num
  have h16 : now + ((15 : Int) + 1) = now + 16 := by norm_num
  simp only [get_appointments_for_reminder, List.mem_filter, h14, h16,
    Bool.and_eq_true, Bool.or_eq_true, decide_eq_true_eq, beq_iff_eq,
    Bool.not_eq_true', beq_eq_false_iff_ne, ne_eq]
  tauto

/-- C8: default-template creation is idempotent and preserves the
one-active-template-per-category invariant: when no active 15-minute template
exists the fallback yields exactly one, a further invocation against a table
that already has one raises instead of inserting a second, and the resulting
table is a fixed point. -/
theorem default_template_creation_idempotent (templates : List EmailTemplate) :
    activeTemplateCount (createDefaultResultDb templates) =
      max (activeTemplateCount templates) 1 ∧
    createDefaultResultDb (createDefaultResultDb templates) =
      createDefaultResultDb templates := by
  have hpred : (fun u : EmailTemplate =>
        u.reminder_type == defaultEmailTemplate.reminder_type &&
        u.is_active == defaultEmailTemplate.is_active) =
      (fun t : EmailTemplate => t.reminder_type == "15min" && t.is_active) := by
    funext u
    show (u.reminder_type == "15min" && u.is_active == true) =
      (u.reminder_type == "15min" && u.is_active)
    cases u.is_active <;> rfl
  have hresult : ∀ ts : List EmailTemplate,
      createDefaultResultDb ts =
        if ts.any (fun t => t.reminder_type == "15min" && t.is_active) then ts
        else ts ++ [defaultEmailTemplate] := by
    intro ts
    unfold createDefaultResultDb create_default_email_template emailTemplateCreate
    rw [hpred]
    by_cases h : ts.any (fun t => t.reminder_type == "15min" && t.is_active) = true
    · rw [if_pos h, if_pos h]
    · rw [if_neg h, if_neg h]
  by_cases h : templates.any (fun t => t.reminder_type == "15min" && t.is_active) = true
  · have herr : createDefaultResultDb templates = templates := by
      rw [hresult, if_pos h]
    obtain ⟨t, ht, hp⟩ := List.any_eq_true.mp h
    have hpos : 1 ≤ activeTemplateCount templates := by
      have hmem : t ∈ templates.filter fun t => t.reminder_type == "15min" && t.is_active :=
        List.mem_filter.mpr ⟨ht, hp⟩
      have hne : (templates.filter fun t => t.reminder_type == "15min" && t.is_active) ≠ [] := by
        intro hnil
        rw [hnil] at hmem
        exact absurd hmem (List.not_mem_nil t)
      exact Nat.one_le_iff_ne_zero.mpr fun hz =>
        hne (List.eq_nil_of_length_eq_zero hz)
    constructor
    · rw [herr]
      exact (Nat.max_eq_left hpos).symm
    · rw [herr, herr]
  · have h' : templates.any (fun t => t.reminder_type == "15min" && t.is_active) = false :=
      Bool.not_eq_true _ ▸ Bool.of_not_eq_true h
    have hok : createDefaultResultDb templates = templates ++ [defaultEmailTemplate] := by
      rw [hresult, if_neg h]
    have hfilterednil : templates.filter (fun t => t.reminder_type == "15min" && t.is_active) = [] := by
      rw [List.filter_eq_nil_iff]
      intro t ht
      have hall := List.any_eq_false.mp h'
      simpa using hall t ht
    have hcount0 : activeTemplateCount templates = 0 := by
      simp [activeTemplateCount, hfilterednil]
    have hpdef : ((fun t : EmailTemplate => t.reminder_type == "15min" && t.is_active)
        defaultEmailTemplate) = true := rfl
    have hcount1 : activeTemplateCount (templates ++ [defaultEmailTemplate]) = 1 := by
      simp [activeTemplateCount, List.filter_append, hfilterednil, hpdef]
    have hany2 : (templates ++ [defaultEmailTemplate]).any
        (fun t => t.reminder_type == "15min" && t.is_active) = true := by
      simp [List.any_append, hpdef]
    constructor
    · rw [hok, hcount1, hcount0]
      decide
    · rw [hok, hresult, if_pos hany2]

/-- C10: the reminder_type argument of send_custom_reminder has no influence
on its behaviour; for any two values of the argument the runs are identical. -/
theorem custom_reminder_type_noninterference (now : Int) (gatewayOk mongoUpdateOk : Bool)
    (appointment_id rt1 rt2 : String) (db : Db) (mongo : MongoState) :
    send_custom_reminder now gatewayOk mongoUpdateOk appointment_id rt1 db mongo =
      send_custom_reminder now gatewayOk mongoUpdateOk appointment_id rt2 db mongo := rfl

end ReminderService

namespace ReminderService

/-- Folding the per-candidate success counter of the scan loop equals
counting the candidates whose enqueue succeeded. -/
theorem foldl_count_eq_filter_length {α : Type} (p : α → Bool) (l : List α)
    (acc : Nat) :
    l.foldl (fun a x => if p x then a + 1 else a) acc = acc + (l.filter p).length := by
  induction l generalizing acc with
  | nil => simp
  | cons hd tl ih =>
    by_cases h : p hd = true
    · rw [List.foldl_cons, if_pos h, ih, List.filter_cons_of_pos h, List.length_cons]
      omega
    · rw [List.foldl_cons, if_neg h, ih,
        List.filter_cons_of_neg (by simpa using h)]

/-- C9 (amended): one scan tick processes every candidate independently —
each candidate contributes to the count exactly according to its own enqueue
outcome, regardless of other candidates' failures — and the emitted summary
contains exactly a status flag and the reminders_sent count. -/
theorem scan_processes_candidates_independently (now : Int)
    (coll : List AppointmentDoc) (delayOk : AppointmentDoc → Bool) :
    check_and_send_reminders now coll delayOk =
      [("status", "success"),
       ("reminders_sent",
        toString ((get_appointments_for_reminder now 15 coll).filter delayOk).length)] ∧
    (check_and_send_reminders now coll delayOk).map Prod.fst =
      ["status", "reminders_sent"] := by
  have h1 : check_and_send_reminders now coll delayOk =
      [("status", "success"),
       ("reminders_sent",
        toString ((get_appointments_for_reminder now 15 coll).filter delayOk).length)] := by
    unfold check_and_send_reminders
    by_cases h : (get_appointments_for_reminder now 15 coll).isEmpty = true
    · rw [if_pos h]
      rw [List.isEmpty_iff.mp h]
      simp only [List.filter_nil, List.length_nil]
      rfl
    · rw [if_neg h, foldl_count_eq_filter_length]
      simp
  exact ⟨h1, by rw [h1]; rfl⟩

/-- C9 counterexample: on a concrete scan with two candidates where the first
enqueue fails, the summary is exactly status plus reminders_sent = 1 — the
second candidate was still processed — and it contains no candidates-found,
skipped, or failed counts. -/
theorem scan_summary_lacks_claimed_counts :
    check_and_send_reminders 0 [exScanDoc1, exScanDoc2] (fun d => d._id == "b2") =
      [("status", "success"), ("reminders_sent", "1")] ∧
    ((check_and_send_reminders 0 [exScanDoc1, exScanDoc2]
        (fun d => d._id == "b2")).map Prod.fst).contains "candidates_found" = false ∧
    ((check_and_send_reminders 0 [exScanDoc1, exScanDoc2]
        (fun d => d._id == "b2")).map Prod.fst).contains "skipped" = false ∧
    ((check_and_send_reminders 0 [exScanDoc1, exScanDoc2]
        (fun d => d._id == "b2")).map Prod.fst).contains "failed" = false := by
  refine ⟨?_, ?_, ?_, ?_⟩ <;> rfl

end ReminderService

namespace ReminderService.Conc

/-- Appending rows for other appointment ids never un-sets appointment a's
Sent flag. -/
theorem sentLedger_append_true (a : String) (l l2 : List (String × LRec))
    (h : sentLedger a l = true) : sentLedger a (l ++ l2) = true := by
  induction l with
  | nil => simp [sentLedger] at h
  | cons hd tl ih =>
    obtain ⟨k, r⟩ := hd
    simp only [sentLedger, List.cons_append] at h ⊢
    by_cases hak : (a == k) = true
    · rw [if_pos hak] at h ⊢
      exact h
    · rw [if_neg hak] at h ⊢
      exact ih h

/-- The finalize write (reminder_sent := True on the row for some id) never
un-sets appointment a's Sent flag. -/
theorem sentLedger_markSent_true (a aid : String) (l : List (String × LRec))
    (h : sentLedger a l = true) :
    sentLedger a (l.map fun kr =>
      if kr.1 == aid then (kr.1, ({ reminder_sent := true } : LRec)) else kr) = true := by
  induction l with
  | nil => simp [sentLedger] at h
  | cons hd tl ih =>
    obtain ⟨k, r⟩ := hd
    rw [List.map_cons]
    simp only [sentLedger] at h
    by_cases hk : (k == aid) = true
    · rw [if_pos hk]
      simp only [sentLedger]
      by_cases hak : (a == k) = true
      · rw [if_pos hak]
      · rw [if_neg hak]
        rw [if_neg hak] at h
        exact ih h
    · rw [if_neg hk]
      simp only [sentLedger]
      by_cases hak : (a == k) = true
      · rw [if_pos hak]
        rw [if_pos hak] at h
        exact h
      · rw [if_neg hak]
        rw [if_neg hak] at h
        exact ih h

/-- No atomic operation of any worker un-sets appointment a's Sent flag. -/
theorem stepWorker_preserves_sent (a : String) (c : Config) (w : Worker)
    (h : sentLedger a c.ledger = true) :
    sentLedger a (stepWorker c w).1.ledger = true := by
  obtain ⟨waid, wpc, wcreated, wseen, wrok, wgok⟩ := w
  cases wpc <;> dsimp only [stepWorker]
  case claim =>
    cases hl : List.lookup waid c.ledger with
    | some r => exact h
    | none => exact sentLedger_append_true a c.ledger _ h
  case check => split <;> exact h
  case fetchCtx => exact h
  case tplQuery => split <;> exact h
  case tplCreate =>
    cases hc : create_default_email_template c.templates with
    | ok p =>
      obtain ⟨t, ts⟩ := p
      exact h
    | error e => exact h
  case render => split <;> exact h
  case gateway => split <;> exact h
  case finalize => exact sentLedger_markSent_true a waid c.ledger h
  case notifyMongo => exact h
  case done => exact h

/-- A scheduler step never un-sets appointment a's Sent flag. -/
theorem step_preserves_sent (a : String) (c : Config) (i : Nat)
    (h : sentOf a c = true) : sentOf a (step c i) = true := by
  unfold step
  cases hw : c.workers[i]? with
  | none => exact h
  | some w => exact stepWorker_preserves_sent a c w h

/-- Once appointment a's row is Sent, no further schedule produces another
not-sent-to-Sent transition. -/
theorem sentRises_eq_zero_of_sent (a : String) (c : Config) (sched : List Nat)
    (h : sentOf a c = true) : sentRises a c sched = 0 := by
  induction sched generalizing c with
  | nil => rfl
  | cons i rest ih =>
    have h2 := step_preserves_sent a c i h
    simp [sentRises, h, h2, ih (step c i) h2]

/-- Along any schedule from any configuration, appointment a's row makes at
most one not-sent-to-Sent transition. -/
theorem sentRises_le_one (a : String) (c : Config) (sched : List Nat) :
    sentRises a c sched ≤ 1 := by
  induction sched generalizing c with
  | nil => simp [sentRises]
  | cons i rest ih =>
    cases hc : sentOf a c with
    | true =>
      rw [sentRises_eq_zero_of_sent a c _ hc]
      exact Nat.zero_le 1
    | false =>
      cases h2 : sentOf a (step c i) with
      | true =>
        simp [sentRises, hc, h2, sentRises_eq_zero_of_sent a (step c i) rest h2]
      | false =>
        simp only [sentRises, hc, h2]
        simpa using ih (step c i)

/-- C1: for every appointment identifier a, at most one ledger row transition
to Sent (reminder_sent = True) occurs for a, even when send_reminder_email is
invoked concurrently N times for the same a — over every schedule
interleaving the workers' atomic operations, every worker count, every
per-worker render/gateway outcome, and every starting ledger and template
table. -/
theorem concurrent_at_most_one_sent_transition (a : String) (n : Nat)
    (renderOks gatewayOks : Nat → Bool) (ledger : List (String × LRec))
    (templates : List EmailTemplate) (sched : List Nat) :
    sentRises a (initConfig a n renderOks gatewayOks ledger templates) sched ≤ 1 :=
  sentRises_le_one a (initConfig a n renderOks gatewayOks ledger templates) sched

end ReminderService.Conc

namespace ReminderService

/-- The claim step on a missing row inserts the fresh Claimed row and the
attempt proceeds to the dispatch stage. -/
theorem send_of_claim_none (now : Int) (gOk mOk : Bool) (aid email : String)
    (adate : Int) (doc : AppointmentDoc) (db : Db) (mongo : MongoState)
    (hfind : db.reminder_logs.find? (fun r => r.appointment_id == aid) = none) :
    send_reminder_email now gOk mOk aid email adate doc db mongo =
      dispatchAndFinalize now gOk mOk aid email adate doc
        (db.reminder_logs ++ [freshLog aid email adate now])
        db.email_templates mongo := by
  unfold send_reminder_email get_or_create_reminder_log
  rw [hfind]
  rfl

/-- The claim step on an existing row that is still Claimed does not skip:
the attempt proceeds to the dispatch stage over the unchanged ledger. -/
theorem send_of_claim_claimed (now : Int) (gOk mOk : Bool) (aid email : String)
    (adate : Int) (doc : AppointmentDoc) (db : Db) (mongo : MongoState)
    (rl : ReminderLog)
    (hfind : db.reminder_logs.find? (fun r => r.appointment_id == aid) = some rl)
    (hclaimed : rl.reminder_sent = false) :
    send_reminder_email now gOk mOk aid email adate doc db mongo =
      dispatchAndFinalize now gOk mOk aid email adate doc
        db.reminder_logs db.email_templates mongo := by
  unfold send_reminder_email get_or_create_reminder_log
  rw [hfind]
  simp [hclaimed]

/-- Template resolution always produces a template in a sequential run: a
query miss implies the fallback insert cannot hit the uniqueness constraint. -/
theorem resolve_template_fst_isSome (templates : List EmailTemplate) :
    (resolve_template templates).1.isSome = true := by
  unfold resolve_template
  cases hf : templates.find? (fun t => t.reminder_type == "15min" && t.is_active) with
  | some t => rfl
  | none =>
    unfold create_default_email_template emailTemplateCreate
    have hpred : (fun u : EmailTemplate =>
          u.reminder_type == defaultEmailTemplate.reminder_type &&
          u.is_active == defaultEmailTemplate.is_active) =
        (fun t : EmailTemplate => t.reminder_type == "15min" && t.is_active) := by
      funext u
      show (u.reminder_type == "15min" && u.is_active == true) =
        (u.reminder_type == "15min" && u.is_active)
      cases u.is_active <;> rfl
    rw [hpred]
    have hany : templates.any (fun t => t.reminder_type == "15min" && t.is_active) = false := by
      rw [List.any_eq_false]
      intro x hx
      simpa using List.find?_eq_none.mp hf x hx
    rw [hany]
    simp

/-- The dispatch stage on a render failure: the attempt reports failure, no
email is sent, the ledger rows are untouched, and no side effect fires. -/
theorem dispatch_render_failure (now : Int) (gOk mOk : Bool)
    (aid email : String) (adate : Int) (doc : AppointmentDoc)
    (logs1 : List ReminderLog) (templates : List EmailTemplate)
    (mongo : MongoState) (tpl : EmailTemplate)
    (htpl : (resolve_template templates).1 = some tpl)
    (hrender : renderEmail tpl (buildContext doc adate
        (find_one_by_id doc.citizenId mongo.users)
        (find_one_by_id doc.departmentId mongo.departments)
        (find_one_by_id doc.serviceId mongo.services)) = none) :
    dispatchAndFinalize now gOk mOk aid email adate doc logs1 templates mongo =
      { ret := false,
        db := { reminder_logs := logs1,
                email_templates := (resolve_template templates).2 },
        mongo := mongo, emails := [], events := [] } := by
  unfold dispatchAndFinalize
  cases hres : resolve_template templates with
  | mk otpl ts2 =>
    rw [hres] at htpl
    dsimp at htpl
    subst htpl
    dsimp only
    rw [hrender]

/-- The dispatch stage on a gateway failure: the gateway was called, the
attempt reports failure, no email is delivered, and the ledger rows are
untouched. -/
theorem dispatch_gateway_failure (now : Int) (mOk : Bool)
    (aid email : String) (adate : Int) (doc : AppointmentDoc)
    (logs1 : List ReminderLog) (templates : List EmailTemplate)
    (mongo : MongoState) (tpl : EmailTemplate) (rend : String × String × String)
    (htpl : (resolve_template templates).1 = some tpl)
    (hrender : renderEmail tpl (buildContext doc adate
        (find_one_by_id doc.citizenId mongo.users)
        (find_one_by_id doc.departmentId mongo.departments)
        (find_one_by_id doc.serviceId mongo.services)) = some rend) :
    dispatchAndFinalize now false mOk aid email adate doc logs1 templates mongo =
      { ret := false,
        db := { reminder_logs := logs1,
                email_templates := (resolve_template templates).2 },
        mongo := mongo, emails := [], events := [Event.gatewayCall] } := by
  unfold dispatchAndFinalize
  cases hres : resolve_template templates with
  | mk otpl ts2 =>
    rw [hres] at htpl
    dsimp at htpl
    subst htpl
    dsimp only
    rw [hrender]
    rfl

/-- The dispatch stage on gateway success: the email goes out, the ledger row
is saved as sent, the best-effort Mongo update runs, and the attempt reports
success. -/
theorem dispatch_success (now : Int) (mOk : Bool)
    (aid email : String) (adate : Int) (doc : AppointmentDoc)
    (logs1 : List ReminderLog) (templates : List EmailTemplate)
    (mongo : MongoState) (tpl : EmailTemplate) (rend : String × String × String)
    (htpl : (resolve_template templates).1 = some tpl)
    (hrender : renderEmail tpl (buildContext doc adate
        (find_one_by_id doc.citizenId mongo.users)
        (find_one_by_id doc.departmentId mongo.departments)
        (find_one_by_id doc.serviceId mongo.services)) = some rend) :
    dispatchAndFinalize now true mOk aid email adate doc logs1 templates mongo =
      { ret := true,
        db := { reminder_logs := markSentLogs logs1 aid now,
                email_templates := (resolve_template templates).2 },
        mongo := mark_reminder_sent mongo aid now mOk,
        emails := [email],
        events := [Event.gatewayCall, Event.ledgerMarkSent,
                   Event.mongoMarkNotified] } := by
  unfold dispatchAndFinalize
  cases hres : resolve_template templates with
  | mk otpl ts2 =>
    rw [hres] at htpl
    dsimp at htpl
    subst htpl
    dsimp only
    rw [hrender]
    rfl

end ReminderService

namespace ReminderService

/-- The freshly claimed row is found by a lookup on its appointment id. -/
theorem find?_freshLog (aid email : String) (adate now : Int) :
    List.find? (fun r => r.appointment_id == aid) [freshLog aid email adate now] =
      some (freshLog aid email adate now) := by
  simp [List.find?, freshLog]

/-- Saving the sent flag rewrites exactly the looked-up row: the lookup after
markSentLogs is the lookup before, with reminder_sent set and the timestamp
filled. -/
theorem find?_markSentLogs (logs : List ReminderLog) (aid : String) (now : Int) :
    (markSentLogs logs aid now).find? (fun r => r.appointment_id == aid) =
      (logs.find? (fun r => r.appointment_id == aid)).map
        (fun r => { r with reminder_sent := true, reminder_sent_at := some now }) := by
  induction logs with
  | nil => rfl
  | cons hd tl ih =>
    cases hk : (hd.appointment_id == aid) with
    | true =>
      simp only [markSentLogs, if_pos hk, List.find?]
      rw [hk]
      rfl
    | false =>
      simp only [markSentLogs, List.find?]
      rw [if_neg (by simp [hk])]
      simp only [List.find?]
      rw [hk]
      exact ih

end ReminderService

namespace ReminderService

/-- C3: the Claimed-to-Sent transition is irreversible and a Sent record is
never re-dispatched: when the ledger row for the appointment id already has
reminder_sent = True, send_reminder_email returns True, dispatches no email,
emits no side effect, and leaves the Django and Mongo states exactly
unchanged (in particular reminder_sent is never reset to False). -/
theorem sent_record_never_redispatched (now : Int) (gatewayOk mongoUpdateOk : Bool)
    (aid email : String) (adate : Int) (doc : AppointmentDoc) (db : Db)
    (mongo : MongoState) (rl : ReminderLog)
    (hfind : db.reminder_logs.find? (fun r => r.appointment_id == aid) = some rl)
    (hsent : rl.reminder_sent = true) :
    send_reminder_email now gatewayOk mongoUpdateOk aid email adate doc db mongo =
      { ret := true, db := db, mongo := mongo, emails := [], events := [] } := by
  unfold send_reminder_email get_or_create_reminder_log
  rw [hfind]
  simp [hsent]

/-- Witness for C3 at a concrete Sent row. -/
theorem sent_record_never_redispatched_witness :
    exDbSent.reminder_logs.find? (fun r => r.appointment_id == "a1") = some exSentLog ∧
    exSentLog.reminder_sent = true ∧
    send_reminder_email 50 true true "a1" "u@x.com" 100 exDoc exDbSent exMongo =
      { ret := true, db := exDbSent, mongo := exMongo, emails := [], events := [] } :=
  ⟨rfl, rfl,
    sent_record_never_redispatched 50 true true "a1" "u@x.com" 100 exDoc exDbSent
      exMongo exSentLog rfl rfl⟩

/-- C2 counterexample: with a Claimed (reminder_sent = False) row for a1
already present at the start, send_reminder_email does not stop: it
dispatches the email to the recipient and reports success, so a manual
resend is not rejected by the claim step. -/
theorem claimed_record_does_not_block_resend :
    exDbClaimed.reminder_logs.find? (fun r => r.appointment_id == "a1") =
      some exClaimedLog ∧
    exClaimedLog.reminder_sent = false ∧
    (send_reminder_email 50 true true "a1" "u@x.com" 100 exDoc exDbClaimed
      exMongo).emails = ["u@x.com"] ∧
    (send_reminder_email 50 true true "a1" "u@x.com" 100 exDoc exDbClaimed
      exMongo).ret = true :=
  ⟨rfl, rfl, rfl, rfl⟩

/-- C2 (amended): the claim step stops an attempt only when the existing
record is in state Sent; if a record exists in state Claimed the attempt
proceeds — when the template resolves, rendering succeeds and the gateway
succeeds it dispatches the email and reports success, so a manual resend for
a Claimed id is accepted, not rejected. -/
theorem claimed_record_resend_dispatches (now : Int) (mOk : Bool)
    (aid email : String) (adate : Int) (doc : AppointmentDoc) (db : Db)
    (mongo : MongoState) (rl : ReminderLog) (tpl : EmailTemplate)
    (rend : String × String × String)
    (hfind : db.reminder_logs.find? (fun r => r.appointment_id == aid) = some rl)
    (hclaimed : rl.reminder_sent = false)
    (htpl : (resolve_template db.email_templates).1 = some tpl)
    (hrender : renderEmail tpl (buildContext doc adate
        (find_one_by_id doc.citizenId mongo.users)
        (find_one_by_id doc.departmentId mongo.departments)
        (find_one_by_id doc.serviceId mongo.services)) = some rend) :
    (send_reminder_email now true mOk aid email adate doc db mongo).emails =
      [email] ∧
    (send_reminder_email now true mOk aid email adate doc db mongo).ret = true := by
  rw [send_of_claim_claimed now true mOk aid email adate doc db mongo rl hfind
        hclaimed,
      dispatch_success now mOk aid email adate doc db.reminder_logs
        db.email_templates mongo tpl rend htpl hrender]
  exact ⟨rfl, rfl⟩

/-- Witness for the amended C2 at a concrete Claimed row. -/
theorem claimed_record_resend_dispatches_witness :
    exDbClaimed.reminder_logs.find? (fun r => r.appointment_id == "a1") =
      some exClaimedLog ∧
    exClaimedLog.reminder_sent = false ∧
    (resolve_template exDbClaimed.email_templates).1 = some exTemplate ∧
    renderEmail exTemplate (buildContext exDoc 100
      (find_one_by_id exDoc.citizenId exMongo.users)
      (find_one_by_id exDoc.departmentId exMongo.departments)
      (find_one_by_id exDoc.serviceId exMongo.services)) = some ("S", "B", "H") ∧
    ((send_reminder_email 50 true true "a1" "u@x.com" 100 exDoc exDbClaimed
        exMongo).emails = ["u@x.com"] ∧
     (send_reminder_email 50 true true "a1" "u@x.com" 100 exDoc exDbClaimed
        exMongo).ret = true) :=
  ⟨rfl, rfl, rfl, rfl,
    claimed_record_resend_dispatches 50 true "a1" "u@x.com" 100 exDoc exDbClaimed
      exMongo exClaimedLog exTemplate ("S", "B", "H") rfl rfl rfl rfl⟩

end ReminderService

namespace ReminderService

/-- C4: if rendering fails (a referenced placeholder is absent) or the email
gateway call fails, no email is delivered, the attempt reports failure
(returns False), the ledger row for the appointment remains Claimed
(reminder_sent = False, reminder_sent_at unset) and is never left Sent, and
the gateway is called at most once (no automatic retry). -/
theorem failed_attempt_leaves_record_claimed (now : Int) (gOk mOk : Bool)
    (aid email : String) (adate : Int) (doc : AppointmentDoc) (db : Db)
    (mongo : MongoState)
    (hclaim : db.reminder_logs.find? (fun r => r.appointment_id == aid) = none ∨
      ∃ rl, db.reminder_logs.find? (fun r => r.appointment_id == aid) = some rl ∧
        rl.reminder_sent = false ∧ rl.reminder_sent_at = none)
    (hfail : (∃ tpl, (resolve_template db.email_templates).1 = some tpl ∧
        renderEmail tpl (buildContext doc adate
          (find_one_by_id doc.citizenId mongo.users)
          (find_one_by_id doc.departmentId mongo.departments)
          (find_one_by_id doc.serviceId mongo.services)) = none) ∨ gOk = false) :
    (send_reminder_email now gOk mOk aid email adate doc db mongo).ret = false ∧
    (send_reminder_email now gOk mOk aid email adate doc db mongo).emails = [] ∧
    ((send_reminder_email now gOk mOk aid email adate doc db
        mongo).db.reminder_logs.find? (fun r => r.appointment_id == aid)).map
      (fun r => (r.reminder_sent, r.reminder_sent_at)) = some (false, none) ∧
    ((send_reminder_email now gOk mOk aid email adate doc db mongo).events.count
      Event.gatewayCall) ≤ 1 := by
  have hlogs : ∃ logs1,
      send_reminder_email now gOk mOk aid email adate doc db mongo =
        dispatchAndFinalize now gOk mOk aid email adate doc logs1
          db.email_templates mongo ∧
      (logs1.find? (fun r => r.appointment_id == aid)).map
        (fun r => (r.reminder_sent, r.reminder_sent_at)) = some (false, none) := by
    rcases hclaim with hnone | ⟨rl, hsome, hs, hsa⟩
    · refine ⟨db.reminder_logs ++ [freshLog aid email adate now],
        send_of_claim_none now gOk mOk aid email adate doc db mongo hnone, ?_⟩
      rw [List.find?_append, hnone, find?_freshLog]
      rfl
    · exact ⟨db.reminder_logs,
        send_of_claim_claimed now gOk mOk aid email adate doc db mongo rl hsome hs,
        by rw [hsome]; simp [hs, hsa]⟩
  obtain ⟨logs1, hsend, hfind1⟩ := hlogs
  rcases hfail with ⟨tpl, htpl, hrender⟩ | hg
  · rw [hsend, dispatch_render_failure now gOk mOk aid email adate doc logs1
      db.email_templates mongo tpl htpl hrender]
    exact ⟨rfl, rfl, hfind1, by simp⟩
  · subst hg
    cases htplo : (resolve_template db.email_templates).1 with
    | none =>
      have hsome := resolve_template_fst_isSome db.email_templates
      rw [htplo] at hsome
      exact absurd hsome (by simp)
    | some tpl =>
      cases hr : renderEmail tpl (buildContext doc adate
          (find_one_by_id doc.citizenId mongo.users)
          (find_one_by_id doc.departmentId mongo.departments)
          (find_one_by_id doc.serviceId mongo.services)) with
      | none =>
        rw [hsend, dispatch_render_failure now false mOk aid email adate doc logs1
          db.email_templates mongo tpl htplo hr]
        exact ⟨rfl, rfl, hfind1, by simp⟩
      | some rend =>
        rw [hsend, dispatch_gateway_failure now mOk aid email adate doc logs1
          db.email_templates mongo tpl rend htplo hr]
        exact ⟨rfl, rfl, hfind1, by simp⟩

/-- Witness for C4 at a concrete render failure: the only active template
references a placeholder absent from the context. -/
theorem failed_attempt_leaves_record_claimed_witness :
    exDbBadTemplate.reminder_logs.find? (fun r => r.appointment_id == "a1") = none ∧
    ((resolve_template exDbBadTemplate.email_templates).1 = some exBadTemplate ∧
     renderEmail exBadTemplate (buildContext exDoc 100
       (find_one_by_id exDoc.citizenId exMongo.users)
       (find_one_by_id exDoc.departmentId exMongo.departments)
       (find_one_by_id exDoc.serviceId exMongo.services)) = none) ∧
    ((send_reminder_email 50 true true "a1" "u@x.com" 100 exDoc exDbBadTemplate
        exMongo).ret = false ∧
     (send_reminder_email 50 true true "a1" "u@x.com" 100 exDoc exDbBadTemplate
        exMongo).emails = [] ∧
     ((send_reminder_email 50 true true "a1" "u@x.com" 100 exDoc exDbBadTemplate
        exMongo).db.reminder_logs.find? (fun r => r.appointment_id == "a1")).map
       (fun r => (r.reminder_sent, r.reminder_sent_at)) = some (false, none) ∧
     ((send_reminder_email 50 true true "a1" "u@x.com" 100 exDoc exDbBadTemplate
        exMongo).events.count Event.gatewayCall) ≤ 1) :=
  ⟨rfl, ⟨rfl, rfl⟩,
    failed_attempt_leaves_record_claimed 50 true true "a1" "u@x.com" 100 exDoc
      exDbBadTemplate exMongo (Or.inl rfl) (Or.inl ⟨exBadTemplate, rfl, rfl⟩)⟩

/-- C7: on gateway success the ledger row is transitioned to Sent with the
timestamp set strictly before the Appointment Source Adapter is asked to set
the external notified flag (the side-effect trace lists ledgerMarkSent before
mongoMarkNotified), and neither a failing nor a succeeding external update
(mongoUpdateOk quantified) un-sets the Sent state or makes the attempt report
failure. -/
theorem finalize_ledger_before_external_flag (now : Int) (mOk : Bool)
    (aid email : String) (adate : Int) (doc : AppointmentDoc) (db : Db)
    (mongo : MongoState) (tpl : EmailTemplate) (rend : String × String × String)
    (hclaim : db.reminder_logs.find? (fun r => r.appointment_id == aid) = none ∨
      ∃ rl, db.reminder_logs.find? (fun r => r.appointment_id == aid) = some rl ∧
        rl.reminder_sent = false)
    (htpl : (resolve_template db.email_templates).1 = some tpl)
    (hrender : renderEmail tpl (buildContext doc adate
        (find_one_by_id doc.citizenId mongo.users)
        (find_one_by_id doc.departmentId mongo.departments)
        (find_one_by_id doc.serviceId mongo.services)) = some rend) :
    (send_reminder_email now true mOk aid email adate doc db mongo).events =
      [Event.gatewayCall, Event.ledgerMarkSent, Event.mongoMarkNotified] ∧
    (send_reminder_email now true mOk aid email adate doc db mongo).ret = true ∧
    ((send_reminder_email now true mOk aid email adate doc db
        mongo).db.reminder_logs.find? (fun r => r.appointment_id == aid)).map
      (fun r => (r.reminder_sent, r.reminder_sent_at)) = some (true, some now) ∧
    (send_reminder_email now true mOk aid email adate doc db mongo).mongo =
      mark_reminder_sent mongo aid now mOk := by
  have hlogs : ∃ logs1 r0,
      send_reminder_email now true mOk aid email adate doc db mongo =
        dispatchAndFinalize now true mOk aid email adate doc logs1
          db.email_templates mongo ∧
      logs1.find? (fun r => r.appointment_id == aid) = some r0 := by
    rcases hclaim with hnone | ⟨rl, hsome, hs⟩
    · refine ⟨db.reminder_logs ++ [freshLog aid email adate now],
        freshLog aid email adate now,
        send_of_claim_none now true mOk aid email adate doc db mongo hnone, ?_⟩
      rw [List.find?_append, hnone, find?_freshLog]
      rfl
    · exact ⟨db.reminder_logs, rl,
        send_of_claim_claimed now true mOk aid email adate doc db mongo rl hsome hs,
        hsome⟩
  obtain ⟨logs1, r0, hsend, hfind1⟩ := hlogs
  rw [hsend, dispatch_success now mOk aid email adate doc logs1 db.email_templates
    mongo tpl rend htpl hrender]
  refine ⟨rfl, rfl, ?_, rfl⟩
  dsimp only
  rw [find?_markSentLogs, hfind1]
  rfl

/-- Witness for C7 on a fresh ledger with a failing external flag update. -/
theorem finalize_ledger_before_external_flag_witness :
    exDbFresh.reminder_logs.find? (fun r => r.appointment_id == "a1") = none ∧
    (resolve_template exDbFresh.email_templates).1 = some exTemplate ∧
    renderEmail exTemplate (buildContext exDoc 100
      (find_one_by_id exDoc.citizenId exMongo.users)
      (find_one_by_id exDoc.departmentId exMongo.departments)
      (find_one_by_id exDoc.serviceId exMongo.services)) = some ("S", "B", "H") ∧
    ((send_reminder_email 50 true false "a1" "u@x.com" 100 exDoc exDbFresh
        exMongo).events =
      [Event.gatewayCall, Event.ledgerMarkSent, Event.mongoMarkNotified] ∧
     (send_reminder_email 50 true false "a1" "u@x.com" 100 exDoc exDbFresh
        exMongo).ret = true ∧
     ((send_reminder_email 50 true false "a1" "u@x.com" 100 exDoc exDbFresh
        exMongo).db.reminder_logs.find? (fun r => r.appointment_id == "a1")).map
       (fun r => (r.reminder_sent, r.reminder_sent_at)) = some (true, some 50) ∧
     (send_reminder_email 50 true false "a1" "u@x.com" 100 exDoc exDbFresh
        exMongo).mongo = mark_reminder_sent exMongo "a1" 50 false) :=
  ⟨rfl, rfl, rfl,
    finalize_ledger_before_external_flag 50 false "a1" "u@x.com" 100 exDoc
      exDbFresh exMongo exTemplate ("S", "B", "H") (Or.inl rfl) rfl rfl⟩

end ReminderService
